import Mathlib

/-!
Verification development for the sales-dashboard repository.

The embedding mirrors the three source files:
  * `models.py`  — the `SalesDay` model (read-only table `sales_2020Q4`),
  * `views.py`   — the chart view `sales_dashboard_view` (namespace `views`),
  * `views0.py`  — the listing view `sales_dashboard_view` (namespace `views0`).

Library behaviour invoked by the code is modelled faithfully:
  * Python `str(date)` / `date.isoformat()` produces the zero-padded
    `YYYY-MM-DD` form (`Date.pyStr`);
  * Python `date.fromisoformat` / a temporal parser reads it back
    (`parseIsoDate`);
  * Django `QuerySet.filter()` with no arguments keeps rows satisfying an
    empty condition list (`runQueryFilter`), `QuerySet.all()` keeps all rows
    (`runQueryAll`); both are reads that leave the database state unchanged;
  * altair chart construction (`Chart.ofData`, `Chart.mark_bar`,
    `Chart.encode`, `Chart.propertiesWidth`, `Chart.to_json`) records the
    mark, the encodings, the tooltip list, the width and the data rows in a
    declarative spec (`ChartSpec`);
  * the Vega-Lite time unit `utcyearmonthdate` truncates a UTC timestamp to
    the start of its UTC calendar day (`truncUtcDay`);
  * Django `render(request, template, context)` produces a page determined
    by the template name and the context (`render`).
-/

/-- Calendar date as stored by the `day = models.DateField(primary_key=True)`
column: a Python `datetime.date` with year, month and day components. -/
structure Date where
  year : Nat
  month : Nat
  day : Nat
deriving DecidableEq, Repr

/-- A Python `datetime.date` is valid when `1 ≤ year ≤ 9999`,
`1 ≤ month ≤ 12` and `1 ≤ day ≤ 31`. -/
def Date.isValid (d : Date) : Bool :=
  1 ≤ d.year && d.year ≤ 9999 && 1 ≤ d.month && d.month ≤ 12 &&
    1 ≤ d.day && d.day ≤ 31

/-- One row of the external table `sales_2020Q4` (`models.py`, class
`SalesDay`): a calendar day (primary key) and a non-negative sales count
(`PositiveIntegerField`). -/
structure SalesDay where
  day : Date
  sales : Nat
deriving DecidableEq, Repr

/-! ### Decimal digit strings: Python `str(date)` and a temporal parser -/

/-- The character for a single decimal digit value. -/
def digitChar (d : Nat) : Char :=
  match d with
  | 0 => '0' | 1 => '1' | 2 => '2' | 3 => '3' | 4 => '4'
  | 5 => '5' | 6 => '6' | 7 => '7' | 8 => '8' | _ => '9'

/-- The decimal value of a digit character. -/
def charDigit (c : Char) : Nat := c.toNat - 48

/-- Little-endian decimal digits of `n`, with explicit fuel so that the
recursion is structural (and hence evaluates in the kernel); `digitsRev`
instantiates the fuel with `n` itself, which is always sufficient. -/
def digitsRevAux : Nat → Nat → List Nat
  | _, 0 => []
  | 0, _ => []
  | fuel + 1, n => n % 10 :: digitsRevAux fuel (n / 10)

/-- Little-endian decimal digits of `n` (empty for 0). -/
def digitsRev (n : Nat) : List Nat := digitsRevAux n n

/-- The decimal digit characters of a natural number, most significant
first (empty for 0; padding supplies the leading zeros). -/
def natToDigitList (n : Nat) : List Char :=
  (digitsRev n).reverse.map digitChar

/-- Zero-pad a digit string on the left to width `w`, as Python
`%04d` / `%02d` formatting does. -/
def padDigits (w : Nat) (l : List Char) : List Char :=
  List.replicate (w - l.length) '0' ++ l

/-- The characters of the ISO-8601 date string `YYYY-MM-DD`. -/
def isoChars (d : Date) : List Char :=
  padDigits 4 (natToDigitList d.year) ++
    '-' :: (padDigits 2 (natToDigitList d.month) ++
      '-' :: padDigits 2 (natToDigitList d.day))

/-- Python `str(day)` for a `datetime.date`: the zero-padded ISO form
`YYYY-MM-DD` (this is what `str(day.day)` in `views.py` produces). -/
def Date.pyStr (d : Date) : String := String.mk (isoChars d)

/-- The natural number denoted by a most-significant-first digit string. -/
def digitListToNat (l : List Char) : Nat :=
  Nat.ofDigits 10 ((l.map charDigit).reverse)

/-- A temporal parser for the fixed-width ISO date form `YYYY-MM-DD`,
modelling Python `date.fromisoformat` (and the date part accepted by any
ISO-8601 temporal parser): exactly ten characters, digits in positions
0-3, 5-6 and 8-9 and hyphens in positions 4 and 7. -/
def parseIsoDate (s : String) : Option Date :=
  let l := s.data
  if l.length = 10 ∧ (l.take 4).all Char.isDigit ∧ l[4]? = some '-' ∧
      ((l.drop 5).take 2).all Char.isDigit ∧ l[7]? = some '-' ∧
      ((l.drop 8).take 2).all Char.isDigit then
    some ⟨digitListToNat (l.take 4), digitListToNat ((l.drop 5).take 2),
      digitListToNat ((l.drop 8).take 2)⟩
  else none

/-! ### Vega-Lite UTC calendar-day truncation -/

/-- Milliseconds in one UTC calendar day (UTC days are uniform in Unix
time). -/
def msPerDay : Nat := 86400000

/-- The Vega-Lite time unit `utcyearmonthdate` applied to a Unix-epoch
timestamp in milliseconds: it rebuilds the date from its UTC year, month
and day only, i.e. truncates the timestamp to the start of its UTC
calendar day. -/
def truncUtcDay (t : Nat) : Nat := t - t % msPerDay

/-! ### The ORM: Django queries against the `sales_db` connection -/

/-- The state of the external `sales_2020Q4` table reached through the
`sales_db` alias: its rows in the order the query returns them. -/
abbrev DbState := List SalesDay

/-- `SalesDay.objects.using("sales_db").all()`: a read returning every row;
the database state is untouched. -/
def runQueryAll (db : DbState) : List SalesDay × DbState := (db, db)

/-- `SalesDay.objects.using("sales_db").filter(...)`: a read returning the
rows satisfying every condition of the argument list; the database state is
untouched.  `filter()` in `views.py` passes no conditions. -/
def runQueryFilter (conds : List (SalesDay → Bool)) (db : DbState) :
    List SalesDay × DbState :=
  (List.filter (fun r => conds.all (fun c => c r)) db, db)

/-! ### pandas and altair, as used by `views.py` -/

/-- The two-column pandas DataFrame built in `views.py`: column names and
the (day-string, sales) rows in order. -/
structure DataFrame where
  columns : List String
  rows : List (String × Nat)
deriving DecidableEq, Repr

/-- One encoding channel of an altair chart (also used for tooltip
entries): field name, optional explicit type, optional title, optional
time unit. -/
structure EncodingChannel where
  field : String
  type : Option String
  title : Option String
  timeUnit : Option String
deriving DecidableEq, Repr

/-- The encodings given to `.encode(...)`. -/
structure Encoding where
  x : Option EncodingChannel
  y : Option EncodingChannel
  tooltip : List EncodingChannel
deriving DecidableEq, Repr

/-- An altair chart under construction. -/
structure Chart where
  data : DataFrame
  mark : Option String
  encoding : Encoding
  width : Option Nat
deriving DecidableEq, Repr

/-- `alt.Chart(df)`: a chart with data and no mark, encodings or size. -/
def Chart.ofData (df : DataFrame) : Chart :=
  { data := df, mark := none, encoding := ⟨none, none, []⟩, width := none }

/-- `.mark_bar()`. -/
def Chart.mark_bar (c : Chart) : Chart := { c with mark := some "bar" }

/-- `.encode(x, y, tooltip=ts)`. -/
def Chart.encode (c : Chart) (x y : EncodingChannel)
    (ts : List EncodingChannel) : Chart :=
  { c with encoding := ⟨some x, some y, ts⟩ }

/-- `.properties(width=w)`. -/
def Chart.propertiesWidth (c : Chart) (w : Nat) : Chart :=
  { c with width := some w }

/-- The serialized declarative chart spec (the JSON document produced by
`chart.to_json()`): mark, encodings, tooltip list, width and inline data. -/
structure ChartSpec where
  mark : Option String
  x : Option EncodingChannel
  y : Option EncodingChannel
  tooltip : List EncodingChannel
  width : Option Nat
  data : List (String × Nat)
deriving DecidableEq, Repr

/-- `chart.to_json()`: serialize the chart as a declarative document. -/
def Chart.to_json (c : Chart) : ChartSpec :=
  { mark := c.mark, x := c.encoding.x, y := c.encoding.y,
    tooltip := c.encoding.tooltip, width := c.width, data := c.data.rows }

/-! ### Django HTTP and rendering -/

/-- An HTTP request: path and query parameters.  Neither view reads any
part of it. -/
structure HttpRequest where
  path : String
  queryParams : List (String × String)
deriving DecidableEq, Repr

/-- A value placed in a template context: either a serialized chart spec
string (`views.py`) or a collection of records (`views0.py`). -/
inductive ContextValue where
  | chartJson (spec : ChartSpec)
  | records (rs : List SalesDay)
deriving DecidableEq, Repr

/-- The rendered response: determined by the template name and the
context handed to `render`. -/
structure RenderedPage where
  template : String
  context : List (String × ContextValue)
deriving DecidableEq, Repr

/-- Django `render(request, template, context)` for these templates: the
output is determined by the template and the context. -/
def render (_request : HttpRequest) (template : String)
    (context : List (String × ContextValue)) : RenderedPage :=
  ⟨template, context⟩

/-- The record collection a rendered page holds under the context key
`"days"` (empty when the key is absent or holds a chart). -/
def contextRecords (p : RenderedPage) : List SalesDay :=
  match List.lookup "days" p.context with
  | some (ContextValue.records rs) => rs
  | _ => []

/-! ### `views.py` — the chart view -/

namespace views

/-- The list comprehension `[[str(day.day), day.sales] for day in days]`
of `views.py` line 9: the ChartTable, one (day-as-string, sales) pair per
fetched record, in query order. -/
def makeChartTable (days : List SalesDay) : List (String × Nat) :=
  days.map (fun d => (d.day.pyStr, d.sales))

/-- `alt.X('day:temporal', title="Day", timeUnit="utcyearmonthdate")`. -/
def xChannel : EncodingChannel :=
  { field := "day", type := some "temporal", title := some "Day",
    timeUnit := some "utcyearmonthdate" }

/-- `alt.Y("sales", title="Sales")` (no explicit type in the shorthand). -/
def yChannel : EncodingChannel :=
  { field := "sales", type := none, title := some "Sales", timeUnit := none }

/-- `alt.Tooltip("day:temporal", title="Day", timeUnit="utcyearmonthdate")`. -/
def dayTooltip : EncodingChannel :=
  { field := "day", type := some "temporal", title := some "Day",
    timeUnit := some "utcyearmonthdate" }

/-- `alt.Tooltip("sales")`. -/
def salesTooltip : EncodingChannel :=
  { field := "sales", type := none, title := none, timeUnit := none }

/-- The chart spec built by `views.py` lines 9-15 from the fetched rows:
DataFrame with columns `["day", "sales"]`, bar mark, the x/y/tooltip
encodings above, width 800, serialized by `to_json`. -/
def chartOf (days : List SalesDay) : ChartSpec :=
  let df : DataFrame := ⟨["day", "sales"], makeChartTable days⟩
  ((((Chart.ofData df).mark_bar).encode xChannel yChannel
      [dayTooltip, salesTooltip]).propertiesWidth 800).to_json

/-- `sales_dashboard_view` of `views.py`: fetch with `filter()`, build the
chart, render `sales_dashboard.html` with context `{"chart": chart.to_json()}`.
Returns the response together with the database state after the request. -/
def sales_dashboard_view (request : HttpRequest) (db : DbState) :
    RenderedPage × DbState :=
  let (days, dbAfter) := runQueryFilter [] db
  (render request "sales_dashboard.html"
    [("chart", ContextValue.chartJson (chartOf days))], dbAfter)

end views

/-! ### `views0.py` — the listing view -/

namespace views0

/-- `sales_dashboard_view` of `views0.py`: fetch with `.all()`, render
`sales_dashboard0.html` with context `{"days": days}`.  Returns the
response together with the database state after the request. -/
def sales_dashboard_view (request : HttpRequest) (db : DbState) :
    RenderedPage × DbState :=
  let (days, dbAfter) := runQueryAll db
  (render request "sales_dashboard0.html"
    [("days", ContextValue.records days)], dbAfter)

end views0

/-- The spec's worked example rows: (2020-10-01, 5) and (2020-10-02, 12). -/
def exRows : List SalesDay := [⟨⟨2020, 10, 1⟩, 5⟩, ⟨⟨2020, 10, 2⟩, 12⟩]

/-- A concrete request used to instantiate request-indexed statements. -/
def req0 : HttpRequest := ⟨"/dashboard/", []⟩

/-- A second concrete request, with a query parameter, used to show the
request has no influence on the output. -/
def req1 : HttpRequest := ⟨"/dashboard/", [("from", "2020-10-01")]⟩

/-! ## Helper lemmas about decimal digit strings -/

theorem digitsRevAux_eq_digits {fuel n : Nat} (h : n ≤ fuel) :
    digitsRevAux fuel n = Nat.digits 10 n := by
  induction fuel generalizing n with
  | zero =>
    have hn : n = 0 := Nat.le_zero.mp h
    subst hn
    rw [Nat.digits_zero]
    simp [digitsRevAux]
  | succ fuel ih =>
    cases n with
    | zero =>
      rw [Nat.digits_zero]
      simp [digitsRevAux]
    | succ m =>
      rw [show digitsRevAux (fuel + 1) (m + 1) =
            (m + 1) % 10 :: digitsRevAux fuel ((m + 1) / 10) from rfl,
        Nat.digits_def' (by norm_num) (Nat.succ_pos m),
        ih (by
          have hlt : (m + 1) / 10 < m + 1 := Nat.div_lt_self (Nat.succ_pos m) (by norm_num)
          omega)]

theorem digitsRev_eq_digits (n : Nat) : digitsRev n = Nat.digits 10 n :=
  digitsRevAux_eq_digits (Nat.le_refl n)

theorem digitsRev_lt_ten {n x : Nat} (hx : x ∈ digitsRev n) : x < 10 := by
  rw [digitsRev_eq_digits] at hx
  exact Nat.digits_lt_base (by norm_num) hx

theorem charDigit_digitChar {d : Nat} (h : d < 10) :
    charDigit (digitChar d) = d := by
  interval_cases d <;> rfl

theorem isDigit_digitChar {d : Nat} (h : d < 10) :
    (digitChar d).isDigit = true := by
  interval_cases d <;> rfl

theorem map_charDigit_digitChar {l : List Nat} (hl : ∀ x ∈ l, x < 10) :
    l.map (charDigit ∘ digitChar) = l := by
  induction l with
  | nil => rfl
  | cons a t ih =>
    have ha : a < 10 := hl a (List.mem_cons_self a t)
    have ht : ∀ x ∈ t, x < 10 := fun x hx => hl x (List.mem_cons_of_mem a hx)
    simp [Function.comp, charDigit_digitChar ha, ih ht]

theorem ofDigits_replicate_zero (b k : Nat) :
    Nat.ofDigits b (List.replicate k 0) = 0 := by
  induction k with
  | zero => rfl
  | succ k ih => simp [List.replicate_succ, Nat.ofDigits_cons, ih]

theorem digitListToNat_padDigits (w n : Nat) :
    digitListToNat (padDigits w (natToDigitList n)) = n := by
  unfold digitListToNat padDigits natToDigitList
  rw [List.map_append, List.map_replicate, List.map_map,
    show charDigit '0' = 0 from rfl,
    map_charDigit_digitChar (fun x hx => digitsRev_lt_ten (List.mem_reverse.mp hx)),
    List.reverse_append, List.reverse_reverse, List.reverse_replicate,
    Nat.ofDigits_append, ofDigits_replicate_zero, digitsRev_eq_digits]
  simp [Nat.ofDigits_digits]

theorem length_padDigits {w : Nat} {l : List Char} (h : l.length ≤ w) :
    (padDigits w l).length = w := by
  simp only [padDigits, List.length_append, List.length_replicate]
  omega

theorem natToDigitList_length_le {n k : Nat} (h : n < 10 ^ k) :
    (natToDigitList n).length ≤ k := by
  unfold natToDigitList
  rw [List.length_map, List.length_reverse, digitsRev_eq_digits]
  rcases Nat.eq_zero_or_pos n with h0 | h0
  · subst h0; simp
  · rw [Nat.digits_len 10 n (by norm_num) (Nat.pos_iff_ne_zero.mp h0)]
    have := Nat.log_lt_of_lt_pow (Nat.pos_iff_ne_zero.mp h0) h
    omega

theorem all_isDigit_padDigits (w n : Nat) :
    (padDigits w (natToDigitList n)).all Char.isDigit = true := by
  rw [List.all_eq_true]
  intro c hc
  rw [padDigits, List.mem_append] at hc
  rcases hc with hc | hc
  · rw [List.eq_of_mem_replicate hc]; rfl
  · rcases List.mem_map.mp hc with ⟨d, hd, rfl⟩
    exact isDigit_digitChar (digitsRev_lt_ten (List.mem_reverse.mp hd))

theorem parseIsoDate_shape (A B C : List Char)
    (hlA : A.length = 4) (hlB : B.length = 2) (hlC : C.length = 2)
    (hdA : A.all Char.isDigit = true) (hdB : B.all Char.isDigit = true)
    (hdC : C.all Char.isDigit = true) :
    parseIsoDate (String.mk (A ++ '-' :: (B ++ '-' :: C))) =
      some ⟨digitListToNat A, digitListToNat B, digitListToNat C⟩ := by
  have hdata : (String.mk (A ++ '-' :: (B ++ '-' :: C))).data =
      A ++ '-' :: (B ++ '-' :: C) := rfl
  have hlen : (A ++ '-' :: (B ++ '-' :: C)).length = 10 := by
    simp [hlA, hlB, hlC]
  have htake4 : (A ++ '-' :: (B ++ '-' :: C)).take 4 = A := by
    rw [← hlA]
    exact List.take_left A _
  have hdrop5 : (A ++ '-' :: (B ++ '-' :: C)).drop 5 = B ++ '-' :: C := by
    rw [show A ++ '-' :: (B ++ '-' :: C) = (A ++ ['-']) ++ (B ++ '-' :: C) by simp]
    exact List.drop_left' (by simp [hlA])
  have hget4 : (A ++ '-' :: (B ++ '-' :: C))[4]? = some '-' := by
    rw [List.getElem?_append_right (by omega), hlA]
    simp
  have hget7 : (A ++ '-' :: (B ++ '-' :: C))[7]? = some '-' := by
    rw [show (7 : Nat) = 5 + 2 from rfl, ← List.getElem?_drop, hdrop5,
      List.getElem?_append_right (by omega), hlB]
    simp
  have hdrop8 : (A ++ '-' :: (B ++ '-' :: C)).drop 8 = C := by
    rw [show (8 : Nat) = 5 + 3 from rfl, ← List.drop_drop, hdrop5,
      show B ++ '-' :: C = (B ++ ['-']) ++ C by simp]
    exact List.drop_left' (by simp [hlB])
  have htakeB : ((A ++ '-' :: (B ++ '-' :: C)).drop 5).take 2 = B := by
    rw [hdrop5, ← hlB]
    exact List.take_left B _
  have htakeC : ((A ++ '-' :: (B ++ '-' :: C)).drop 8).take 2 = C := by
    rw [hdrop8, ← hlC, List.take_length]
  unfold parseIsoDate
  rw [hdata, if_pos]
  · rw [htake4, htakeB, htakeC]
  · refine ⟨hlen, ?_, hget4, ?_, hget7, ?_⟩
    · rw [htake4]; exact hdA
    · rw [htakeB]; exact hdB
    · rw [htakeC]; exact hdC

theorem parseIsoDate_pyStr {d : Date}
    (hy : d.year ≤ 9999) (hm : d.month ≤ 99) (hd : d.day ≤ 99) :
    parseIsoDate d.pyStr = some d := by
  obtain ⟨y, m, dd⟩ := d
  have hy' : y ≤ 9999 := hy
  have hm' : m ≤ 99 := hm
  have hd' : dd ≤ 99 := hd
  have hlA : (padDigits 4 (natToDigitList y)).length = 4 :=
    length_padDigits (natToDigitList_length_le (by norm_num; omega))
  have hlB : (padDigits 2 (natToDigitList m)).length = 2 :=
    length_padDigits (natToDigitList_length_le (by norm_num; omega))
  have hlC : (padDigits 2 (natToDigitList dd)).length = 2 :=
    length_padDigits (natToDigitList_length_le (by norm_num; omega))
  have h := parseIsoDate_shape (padDigits 4 (natToDigitList y))
    (padDigits 2 (natToDigitList m)) (padDigits 2 (natToDigitList dd))
    hlA hlB hlC (all_isDigit_padDigits 4 y) (all_isDigit_padDigits 2 m)
    (all_isDigit_padDigits 2 dd)
  show parseIsoDate (String.mk (isoChars ⟨y, m, dd⟩)) = some ⟨y, m, dd⟩
  unfold isoChars
  rw [h, digitListToNat_padDigits, digitListToNat_padDigits,
    digitListToNat_padDigits]

theorem truncUtcDay_add_lt {t1 t2 r : Nat}
    (h2 : t2 = truncUtcDay t1 + r) (hr : r < msPerDay) :
    truncUtcDay t2 = truncUtcDay t1 := by
  subst h2
  unfold truncUtcDay msPerDay at *
  omega

theorem runQueryFilter_nil (db : DbState) : runQueryFilter [] db = (db, db) := by
  unfold runQueryFilter
  simp

/-! ## Claim theorems -/

/-- C1: for every fetched row list the Query/Transform step produces a
ChartTable with exactly as many (day, sales) pairs as rows; the pair at
every index is the stringified day and the exact sales integer of the row
at the same index, so the source query's row order is preserved. -/
theorem C1_chart_table_pairs (days : List SalesDay) :
    (views.makeChartTable days).length = days.length ∧
    ∀ (i : Nat) (d : SalesDay), days[i]? = some d →
      (views.makeChartTable days)[i]? = some (d.day.pyStr, d.sales) := by
  refine ⟨by simp [views.makeChartTable], ?_⟩
  intro i d hd
  simp [views.makeChartTable, hd]

/-- Witness for C1 at the spec's example rows, index 0. -/
theorem C1_chart_table_pairs_witness :
    exRows[0]? = some ⟨⟨2020, 10, 1⟩, 5⟩ ∧
    (views.makeChartTable exRows)[0]? = some ("2020-10-01", 5) := by
  have h := (C1_chart_table_pairs exRows).2 0 ⟨⟨2020, 10, 1⟩, 5⟩ rfl
  exact ⟨rfl, by rw [h]; rfl⟩

/-- C2: every serialized chart spec declares mark "bar", an x-encoding on
field "day" of temporal type with calendar-day time unit and title "Day", a
y-encoding on field "sales" with title "Sales", a tooltip listing the day
and sales fields, and width 800. -/
theorem C2_chart_spec_encodings (days : List SalesDay) :
    (views.chartOf days).mark = some "bar" ∧
    (views.chartOf days).x =
      some ⟨"day", some "temporal", some "Day", some "utcyearmonthdate"⟩ ∧
    (views.chartOf days).y = some ⟨"sales", none, some "Sales", none⟩ ∧
    (views.chartOf days).tooltip.map EncodingChannel.field = ["day", "sales"] ∧
    (views.chartOf days).width = some 800 :=
  ⟨rfl, rfl, rfl, rfl, rfl⟩

/-- C3 counterexample: on the same fetched rows (the empty table) the two
`sales_dashboard_view` implementations render different outputs, so they are
not behaviorally one component. -/
theorem C3_counterexample :
    (views.sales_dashboard_view req0 []).1 ≠ (views0.sales_dashboard_view req0 []).1 := by
  decide

/-- C3 amended: the two implementations are distinct components: the
`views.py` one renders template "sales_dashboard.html" with the serialized
chart spec under context key "chart", while the `views0.py` one renders
template "sales_dashboard0.html" with the unchanged record collection under
context key "days"; for every database snapshot their rendered outputs
differ. -/
theorem C3_two_distinct_views (request : HttpRequest) (db : DbState) :
    (views.sales_dashboard_view request db).1 =
      ⟨"sales_dashboard.html",
        [("chart", ContextValue.chartJson (views.chartOf db))]⟩ ∧
    (views0.sales_dashboard_view request db).1 =
      ⟨"sales_dashboard0.html", [("days", ContextValue.records db)]⟩ ∧
    (views.sales_dashboard_view request db).1 ≠
      (views0.sales_dashboard_view request db).1 := by
  have h1 : (views.sales_dashboard_view request db).1 =
      ⟨"sales_dashboard.html",
        [("chart", ContextValue.chartJson (views.chartOf db))]⟩ := by
    unfold views.sales_dashboard_view
    rw [runQueryFilter_nil]
    rfl
  have h2 : (views0.sales_dashboard_view request db).1 =
      ⟨"sales_dashboard0.html", [("days", ContextValue.records db)]⟩ := rfl
  refine ⟨h1, h2, ?_⟩
  rw [h1, h2]
  intro h
  exact absurd (congrArg RenderedPage.template h) (by simp)

/-- C4: on the empty fetch the chart view still renders a page whose context
holds a chart spec with empty data and with mark, encodings and width all
present: no validation rejects the empty ChartTable. -/
theorem C4_empty_input_valid (request : HttpRequest) :
    (views.sales_dashboard_view request []).1 =
      render request "sales_dashboard.html"
        [("chart", ContextValue.chartJson (views.chartOf []))] ∧
    (views.chartOf []).data = [] ∧
    (views.chartOf []).mark = some "bar" ∧
    (views.chartOf []).x.isSome = true ∧
    (views.chartOf []).y.isSome = true ∧
    (views.chartOf []).width = some 800 :=
  ⟨rfl, rfl, rfl, rfl, rfl, rfl⟩

/-- C5: stringified day values round-trip through a temporal parser back to
the same calendar date, and the UTC calendar-day truncation used by the
chart sends any two timestamps of the same UTC day (differing only in
finer-than-day components) to the same truncated value. -/
theorem C5_roundtrip_and_truncation (d : Date) (t1 t2 r : Nat)
    (hv : d.isValid = true) (h2 : t2 = truncUtcDay t1 + r)
    (hr : r < msPerDay) :
    parseIsoDate d.pyStr = some d ∧ truncUtcDay t2 = truncUtcDay t1 := by
  refine ⟨?_, truncUtcDay_add_lt h2 hr⟩
  simp only [Date.isValid, Bool.and_eq_true, decide_eq_true_eq] at hv
  exact parseIsoDate_pyStr (by omega) (by omega) (by omega)

/-- Witness for C5: the date 2020-10-01 and two timestamps one hour apart
within the same UTC day. -/
theorem C5_roundtrip_and_truncation_witness :
    Date.isValid ⟨2020, 10, 1⟩ = true ∧
    (90000000 : Nat) = truncUtcDay 86400123 + 3600000 ∧
    (3600000 : Nat) < msPerDay ∧
    parseIsoDate (Date.pyStr ⟨2020, 10, 1⟩) = some ⟨2020, 10, 1⟩ ∧
    truncUtcDay 90000000 = truncUtcDay 86400123 := by
  have h := C5_roundtrip_and_truncation ⟨2020, 10, 1⟩ 86400123 90000000 3600000
    (by decide) (by decide) (by decide)
  exact ⟨by decide, by decide, by decide, h.1, h.2⟩

/-- C6: the listing view fetches all rows with no filter, passes the
collection unchanged to its template context under key "days", and with a
2-row table the context holds exactly 2 record objects. -/
theorem C6_listing_passthrough (request : HttpRequest) (db : DbState) :
    (runQueryAll db).1 = db ∧
    (views0.sales_dashboard_view request db).1 =
      ⟨"sales_dashboard0.html", [("days", ContextValue.records db)]⟩ ∧
    (db.length = 2 →
      (contextRecords (views0.sales_dashboard_view request db).1).length = 2) := by
  refine ⟨rfl, rfl, fun h => ?_⟩
  have hc : contextRecords (views0.sales_dashboard_view request db).1 = db := rfl
  rw [hc]
  exact h

/-- Witness for C6 at the spec's 2-row example. -/
theorem C6_listing_passthrough_witness :
    exRows.length = 2 ∧
    (contextRecords (views0.sales_dashboard_view req0 exRows).1).length = 2 :=
  ⟨rfl, (C6_listing_passthrough req0 exRows).2.2 rfl⟩

/-- C7: the chart view's no-argument filter() retrieves exactly the rows,
in the same order, of an unfiltered fetch-all query, for every table
contents. -/
theorem C7_filter_noargs_eq_all (db : DbState) :
    runQueryFilter [] db = runQueryAll db := by
  rw [runQueryFilter_nil]
  rfl

/-- C8: the request, including its query parameters, has no influence: for
any two requests over the same database snapshot both views produce
identical responses (same fetched rows, chart spec and template context)
and identical database states. -/
theorem C8_request_noninterference (r1 r2 : HttpRequest) (db : DbState) :
    views.sales_dashboard_view r1 db = views.sales_dashboard_view r2 db ∧
    views0.sales_dashboard_view r1 db = views0.sales_dashboard_view r2 db :=
  ⟨rfl, rfl⟩

/-- C9: every request handled by either view leaves the external sales
table unchanged: the database state after the request equals the state
before it. -/
theorem C9_frame_read_only (request : HttpRequest) (db : DbState) :
    (views.sales_dashboard_view request db).2 = db ∧
    (views0.sales_dashboard_view request db).2 = db :=
  ⟨rfl, rfl⟩

/-- C10: in every chart spec the chart view produces, both the x-encoding
and the day tooltip entry perform calendar-day truncation with the UTC time
unit "utcyearmonthdate". -/
theorem C10_utc_timeunit (days : List SalesDay) :
    (views.chartOf days).x.map EncodingChannel.timeUnit =
      some (some "utcyearmonthdate") ∧
    ((views.chartOf days).tooltip.filter (fun t => t.field == "day")).map
      EncodingChannel.timeUnit = [some "utcyearmonthdate"] :=
  ⟨rfl, rfl⟩
